import Mathlib

/-!
Verification of the appointment-lifecycle and role-authorization core of the
sehat-saathi application, shallowly embedded from the TypeScript source
(`src/shared/schema.ts`, `src/server/storage.ts`, `src/server/routes.ts`,
`src/server/auth/*`).

Modelling conventions:
- JavaScript `Date` values are epoch milliseconds, modelled as `Int`.
- `string | null` fields are `Option String` (`none` = SQL/JSON null);
  a field that may additionally be *absent* (JS `undefined`) gets one more
  `Option` layer where the distinction matters (`UpdateExtra`).
- The in-memory `Map` of `MemStorage` is an association list keyed by id;
  `Map.get` is `List.find?` on the key, `Map.set` of an existing key maps
  the matching entries, `Map.set` of a fresh key prepends.
- Handlers are pure functions from (store, authenticated user, request
  parts) to (response, updated store); the express response is reduced to
  its status code and optional JSON payload.
-/

/-- The authenticated identity attached to a request by the
`authenticateToken` middleware (`AuthenticatedUser` in `src/server/auth`):
`role` and `specialization` are optional in the JWT payload. -/
structure AuthenticatedUser where
  id : String
  email : String
  role : Option String
  specialization : Option String
deriving DecidableEq, Repr

/-- An appointment record (`appointments` table in `src/shared/schema.ts`,
as materialised by `MemStorage.createAppointment`). `date` and `createdAt`
are epoch milliseconds. -/
structure Appointment where
  id : String
  patientId : String
  doctorId : String
  date : Int
  timeSlot : String
  reason : Option String
  status : String
  doctorComment : Option String
  clinicAddress : Option String
  clinicPhone : Option String
  patientNotified : Bool
  createdAt : Int
deriving DecidableEq, Repr

/-- The appointments map of `MemStorage`, keyed by appointment id. -/
def Store := List (String × Appointment)

instance : DecidableEq Store := by
  unfold Store
  infer_instance

/-- `MemStorage.getAppointment`: `this.appointments.get(id)`. -/
def getAppointment (s : Store) (id : String) : Option Appointment :=
  (s.find? (fun p => p.1 = id)).map (fun p => p.2)

/-- `this.appointments.set(id, a)` for a key already present: every entry
with that key is replaced. -/
def setAppointment (s : Store) (id : String) (a : Appointment) : Store :=
  s.map (fun p => if p.1 = id then (id, a) else p)

/-- The `extra?: Partial<Appointment>` argument of
`MemStorage.updateAppointmentStatus`. Outer `none` means the property is
absent (JS `undefined`, so the stored field is kept); for the three text
fields the inner `Option String` is the supplied `string | null` value. -/
structure UpdateExtra where
  doctorComment : Option (Option String)
  clinicAddress : Option (Option String)
  clinicPhone : Option (Option String)
  patientNotified : Option Bool
deriving DecidableEq, Repr

/-- `MemStorage.updateAppointmentStatus` (`src/server/storage.ts:284-299`):
looks the appointment up, unconditionally overwrites `status`, copies each
`extra` field only when it is supplied (`typeof ... !== 'undefined'`), and
stores the result back. Returns `none` (handler: 404) for an unknown id. -/
def updateAppointmentStatus (s : Store) (id status : String) (extra : UpdateExtra) :
    Option Appointment × Store :=
  match getAppointment s id with
  | none => (none, s)
  | some a =>
    let a' : Appointment :=
      { a with
        status := status
        doctorComment := extra.doctorComment.getD a.doctorComment
        clinicAddress := extra.clinicAddress.getD a.clinicAddress
        clinicPhone := extra.clinicPhone.getD a.clinicPhone
        patientNotified := extra.patientNotified.getD a.patientNotified }
    (some a', setAppointment s id a')

/-- An HTTP-shaped response: status code plus optional JSON payload. -/
structure Resp (α : Type) where
  code : Nat
  payload : Option α
deriving DecidableEq, Repr

/-- Character class `[\d\s\-()]` of the clinicPhone pattern in
`src/server/routes.ts:152` (JS `\s` reduced to ASCII whitespace). -/
def phoneBodyChar (c : Char) : Bool :=
  c.isDigit || c = ' ' || c = '\t' || c = '\n' || c = '\r' || c = '-' || c = '(' || c = ')'

/-- The clinicPhone pattern of the PATCH handler:
regex `[+\d][\d\s\-()]` with 5 to 19 repetitions, anchored both ends. -/
def phoneOk (p : String) : Bool :=
  match p.data with
  | [] => false
  | c :: rest =>
    (c = '+' || c.isDigit) && decide (5 ≤ rest.length) && decide (rest.length ≤ 19)
      && rest.all phoneBodyChar

/-- The `if (clinicPhone)` guard of the PATCH handler fails (returns 400)
exactly when clinicPhone is truthy (present and non-empty) and does not
match the pattern. -/
def phoneGuardFails (cp : Option String) : Bool :=
  match cp with
  | some p => decide (p ≠ "") && !phoneOk p
  | none => false

/-- The JSON body of `PATCH /api/appointments/:id/status`. A field that is
JSON `null` is folded into `none`, matching the handler's `?? undefined`. -/
structure PatchBody where
  status : String
  doctorComment : Option String
  clinicAddress : Option String
  clinicPhone : Option String
deriving DecidableEq, Repr

/-- `requireRole` middleware (`src/server/auth` middleware file): passes
iff the user's role is present and among the allowed roles. -/
def requireRoleOk (user : AuthenticatedUser) (roles : List String) : Bool :=
  match user.role with
  | some r => roles.contains r
  | none => false

/-- The `PATCH /api/appointments/:id/status` handler body
(`src/server/routes.ts:147-171`): phone-format guard, then
`storage.updateAppointmentStatus` (which already mutates the record), then
404 for an unknown id, then the doctor-ownership check (403), then 200.
The source performs the ownership check only *after* the update. -/
def patchStatusHandler (s : Store) (user : AuthenticatedUser) (id : String) (b : PatchBody) :
    Resp Appointment × Store :=
  if phoneGuardFails b.clinicPhone then (⟨400, none⟩, s)
  else
    let r := updateAppointmentStatus s id b.status
      ⟨b.doctorComment.map some, b.clinicAddress.map some, b.clinicPhone.map some, none⟩
    match r.1 with
    | none => (⟨404, none⟩, r.2)
    | some a' =>
      if a'.doctorId ≠ user.id then (⟨403, none⟩, r.2)
      else (⟨200, some a'⟩, r.2)

/-- The full `PATCH /api/appointments/:id/status` endpoint:
`authenticateAndAuthorize("doctor")` (the `requireRole` gate, 403 on
failure) followed by the handler. Authentication itself is assumed to have
succeeded (the user is given). -/
def patchStatusEndpoint (s : Store) (user : AuthenticatedUser) (id : String) (b : PatchBody) :
    Resp Appointment × Store :=
  if requireRoleOk user ["doctor"] = false then (⟨403, none⟩, s)
  else patchStatusHandler s user id b

/-- The parsed body of `POST /api/appointments`: the fields of
`insertAppointmentSchema` (the `appointments` table minus `id`/`createdAt`;
columns with defaults — `status`, `patientNotified` — and nullable columns
are optional and survive parsing when supplied). The route has already
converted the `date` string to a valid `Date` (epoch ms). -/
structure InsertAppointment where
  patientId : String
  doctorId : String
  date : Int
  timeSlot : String
  reason : Option String
  status : Option String
  doctorComment : Option String
  clinicAddress : Option String
  clinicPhone : Option String
  patientNotified : Option Bool
deriving DecidableEq, Repr

/-- The timeSlot refinement of `insertAppointmentSchema`:
24-hour `HH:MM`, hours `[01]` digit or `2[0-3]`, minutes `[0-5][0-9]`. -/
def timeSlotOk (ts : String) : Bool :=
  match ts.data with
  | [h1, h2, c, m1, m2] =>
    (((h1 = '0' || h1 = '1') && h2.isDigit) || (h1 = '2' && h2.isDigit && decide (h2 ≤ '3')))
      && c = ':' && m1.isDigit && decide (m1 ≤ '5') && m2.isDigit
  | _ => false

/-- JavaScript `String.prototype.trim`: whitespace stripped from both ends
(executable model over the character list; `String.trim` of the Lean core
library is avoided because its recursion does not reduce in the kernel). -/
def jsTrim (s : String) : String :=
  ⟨((s.data.dropWhile Char.isWhitespace).reverse.dropWhile Char.isWhitespace).reverse⟩

/-- The reason refinements of `insertAppointmentSchema`: each is vacuously
true for a falsy reason (`undefined`, `null` or the empty string); a truthy
reason must have at least 5 characters after trimming and at most 300
characters *before* trimming (the source checks `r.length <= 300` on the
untrimmed string). -/
def reasonOk (r : Option String) : Bool :=
  match r with
  | none => true
  | some s => s = "" || (decide (5 ≤ (jsTrim s).length) && decide (s.length ≤ 300))

/-- The whole `insertAppointmentSchema.parse` content validation
(`src/shared/schema.ts:63-67`): timeSlot pattern, date at most 60 s in the
past (`d.getTime() >= Date.now() - 60000`), reason length rules. -/
def insertAppointmentSchemaCheck (p : InsertAppointment) (now : Int) : Bool :=
  timeSlotOk p.timeSlot && decide (now - 60000 ≤ p.date) && reasonOk p.reason

/-- `MemStorage.createAppointment` (`src/server/storage.ts:262-282`):
builds the record with a fresh id; `status` falls back to `"pending"` only
when the supplied value is falsy (`status || "pending"`), a falsy `reason`
is stored as null (`reason ? reason : null`), the three clinic fields are
`?? null`, `patientNotified` is `?? false`. -/
def createAppointment (s : Store) (newId : String) (now : Int) (p : InsertAppointment) :
    Appointment × Store :=
  let a : Appointment :=
    { id := newId
      patientId := p.patientId
      doctorId := p.doctorId
      date := p.date
      timeSlot := p.timeSlot
      reason := match p.reason with
        | some r => if r = "" then none else some r
        | none => none
      status := match p.status with
        | some st => if st = "" then "pending" else st
        | none => "pending"
      doctorComment := p.doctorComment
      clinicAddress := p.clinicAddress
      clinicPhone := p.clinicPhone
      patientNotified := p.patientNotified.getD false
      createdAt := now }
  (a, (newId, a) :: s)

/-- The `POST /api/appointments` handler (`src/server/routes.ts:89-119`,
after `authenticateToken`): schema validation (400 on failure), then the
self-booking guard for patients (403), then `createAppointment` (201). -/
def postAppointmentsHandler (s : Store) (user : AuthenticatedUser) (body : InsertAppointment)
    (now : Int) (newId : String) : Resp Appointment × Store :=
  if insertAppointmentSchemaCheck body now = false then (⟨400, none⟩, s)
  else if user.role = some "patient" ∧ body.patientId ≠ user.id then (⟨403, none⟩, s)
  else
    let r := createAppointment s newId now body
    (⟨201, some r.1⟩, r.2)

/-- The `POST /api/appointments/:id/ack` handler
(`src/server/routes.ts:174-183`, after `authenticateToken`): 404 for an
unknown id, 403 unless the actor is the owning patient, otherwise
`updateAppointmentStatus` with the current status and
`{ patientNotified: true }`. -/
def ackHandler (s : Store) (user : AuthenticatedUser) (id : String) :
    Resp Appointment × Store :=
  match getAppointment s id with
  | none => (⟨404, none⟩, s)
  | some a =>
    if a.patientId ≠ user.id then (⟨403, none⟩, s)
    else
      let r := updateAppointmentStatus s id a.status ⟨none, none, none, some true⟩
      (⟨200, r.1⟩, r.2)

/-- One entry of a prescription's `medicines` JSON array. The column is an
unconstrained `jsonb`, so an entry need not carry a name. -/
structure Medicine where
  name : Option String
  dosage : Option String
deriving DecidableEq, Repr

/-- A prescription record (`prescriptions` table of `src/shared/schema.ts`,
as materialised by `MemStorage.createPrescription`). -/
structure Prescription where
  id : String
  appointmentId : Option String
  doctorId : String
  patientId : String
  medicines : List Medicine
  notes : Option String
  createdAt : Int
deriving DecidableEq, Repr

/-- The prescriptions map of `MemStorage`, keyed by prescription id. -/
def PStore := List (String × Prescription)

instance : DecidableEq PStore := by
  unfold PStore
  infer_instance

/-- `MemStorage.getPrescription`. -/
def getPrescription (ps : PStore) (id : String) : Option Prescription :=
  (ps.find? (fun p => p.1 = id)).map (fun p => p.2)

/-- The parsed body of `POST /api/prescriptions`
(`insertPrescriptionSchema`: the `prescriptions` table minus
`id`/`createdAt`; `medicines` is an unvalidated `jsonb` column). -/
structure InsertPrescription where
  appointmentId : Option String
  doctorId : String
  patientId : String
  medicines : List Medicine
  notes : Option String
deriving DecidableEq, Repr

/-- `insertPrescriptionSchema.parse` content validation
(`src/shared/schema.ts:69-72`): `createInsertSchema(prescriptions)` imposes
no constraint on the `medicines` json beyond being valid JSON, and none of
the remaining fields carries a refinement, so every structurally well-typed
body passes. -/
def insertPrescriptionSchemaCheck (_p : InsertPrescription) : Bool :=
  true

/-- `MemStorage.createPrescription` (`src/server/storage.ts:317-329`):
falsy `appointmentId`/`notes` become null (`|| null`). -/
def createPrescription (ps : PStore) (newId : String) (now : Int) (p : InsertPrescription) :
    Prescription × PStore :=
  let pr : Prescription :=
    { id := newId
      appointmentId := match p.appointmentId with
        | some v => if v = "" then none else some v
        | none => none
      doctorId := p.doctorId
      patientId := p.patientId
      medicines := p.medicines
      notes := match p.notes with
        | some v => if v = "" then none else some v
        | none => none
      createdAt := now }
  (pr, (newId, pr) :: ps)

/-- The full `POST /api/prescriptions` endpoint
(`src/server/routes.ts:186-207`): `authenticateAndAuthorize("doctor")`,
schema parse (400 on failure), the doctor-identity check (403 when the
payload's doctorId differs from the authenticated id), then
`createPrescription` (201). -/
def postPrescriptionsEndpoint (ps : PStore) (user : AuthenticatedUser)
    (body : InsertPrescription) (newId : String) (now : Int) : Resp Prescription × PStore :=
  if requireRoleOk user ["doctor"] = false then (⟨403, none⟩, ps)
  else if insertPrescriptionSchemaCheck body = false then (⟨400, none⟩, ps)
  else if body.doctorId ≠ user.id then (⟨403, none⟩, ps)
  else
    let r := createPrescription ps newId now body
    (⟨201, some r.1⟩, r.2)

/-- The claim set carried in a JWT (`JWTPayload` in `src/server/auth`),
minus the numeric `iat`/`exp` fields, which the `Token` model carries
explicitly. -/
structure JWTPayload where
  id : String
  email : String
  role : Option String
  specialization : Option String
deriving DecidableEq, Repr

/-- A bearer token as seen by `jwt.verify`. Modelled from the spec: the
`jsonwebtoken` library is an external dependency, so a token is abstracted
to whether its structure is valid, whether its signature (under the server
secret, with the issuer/audience tags) is valid, its encoded expiry
(epoch seconds) and its claim set. -/
structure Token where
  wellFormed : Bool
  sigValid : Bool
  exp : Int
  claims : JWTPayload
deriving DecidableEq, Repr

/-- The error taxonomy of `jsonwebtoken`'s `verify`. -/
inductive JwtError where
  | tokenExpired
  | jsonWebTokenError
deriving DecidableEq, Repr

/-- Modelled from the spec: `jwt.verify` of the `jsonwebtoken` library
(not part of this repository). Structure and signature are checked first
(`JsonWebTokenError` on failure), then the encoded expiry against the
current time (`TokenExpiredError` when `now >= exp`), then the claims are
returned. -/
def jwtVerify (t : Token) (now : Int) : Except JwtError JWTPayload :=
  if !t.wellFormed || !t.sigValid then .error .jsonWebTokenError
  else if t.exp ≤ now then .error .tokenExpired
  else .ok t.claims

/-- `verifyToken` (`src/server/auth`, jwt module, lines 82-99): wraps
`jwt.verify` and maps `TokenExpiredError` to the message
`"Token has expired"` and `JsonWebTokenError` to `"Invalid token"`. -/
def verifyToken (t : Token) (now : Int) : Except String JWTPayload :=
  match jwtVerify t now with
  | .ok c => .ok c
  | .error .tokenExpired => .error "Token has expired"
  | .error .jsonWebTokenError => .error "Invalid token"

/-- The medicines validation as §4.4 of the spec words it, written for
comparison with `insertPrescriptionSchemaCheck` (which embeds the source):
the list must be non-empty and every entry must carry a non-empty name. -/
def medicinesSpecOk (ms : List Medicine) : Bool :=
  !ms.isEmpty && ms.all (fun m => match m.name with
    | some n => decide (n ≠ "")
    | none => false)

/-- The reason validation as the spec words it, written for comparison with
`reasonOk` (which embeds the source): a reason, when present, must be 5 to
300 characters after trimming. -/
def reasonSpecOk (r : Option String) : Bool :=
  match r with
  | none => true
  | some s => decide (5 ≤ (jsTrim s).length) && decide ((jsTrim s).length ≤ 300)

/-! Shared concrete fixtures for witnesses and counterexamples. -/

/-- A pending appointment owned by patient `p1` and assigned to doctor
`d1`. -/
def apptPending : Appointment :=
  { id := "a1", patientId := "p1", doctorId := "d1", date := 2000000, timeSlot := "09:00",
    reason := none, status := "pending", doctorComment := none, clinicAddress := none,
    clinicPhone := none, patientNotified := false, createdAt := 1000 }

/-- A pending appointment assigned to a different doctor, `d2`. -/
def apptOfD2 : Appointment :=
  { apptPending with id := "a2", doctorId := "d2" }

/-- The authenticated doctor `d1`. -/
def doctorD1 : AuthenticatedUser :=
  { id := "d1", email := "d1@sehat.com", role := some "doctor",
    specialization := some "General Medicine" }

/-- The authenticated patient `p1`. -/
def patientP1 : AuthenticatedUser :=
  { id := "p1", email := "p1@sehat.com", role := some "patient", specialization := none }

/-! Helper lemmas about the association-list store. -/

theorem getAppointment_setAppointment_self (s : List (String × Appointment)) (id : String)
    (a b : Appointment) (h : getAppointment s id = some a) :
    getAppointment (setAppointment s id b) id = some b := by
  induction s with
  | nil => simp [getAppointment] at h
  | cons p t ih =>
    by_cases hp : p.1 = id
    · simp [getAppointment, setAppointment, List.find?_cons, hp]
    · simp only [getAppointment, setAppointment, List.map_cons, if_neg hp] at h ⊢
      rw [List.find?_cons_of_neg _ (by simpa using hp)] at h
      rw [List.find?_cons_of_neg _ (by simpa using hp)]
      exact ih h

theorem setAppointment_idem (s : List (String × Appointment)) (id : String) (b : Appointment) :
    setAppointment (setAppointment s id b) id b = setAppointment s id b := by
  unfold setAppointment
  rw [List.map_map]
  apply List.map_congr_left
  intro p _
  by_cases hp : p.1 = id <;> simp [hp]

/-- C1 counterexample: the code performs no transition validation. A direct
`pending → completed` request by the assigned doctor — which the claim says
must fail with `InvalidTransition` and leave the status unchanged — returns
200 and changes the status to `"completed"`. -/
theorem pending_to_completed_patch_succeeds :
    apptPending.status = "pending" ∧
    (patchStatusEndpoint [("a1", apptPending)] doctorD1 "a1"
        ⟨"completed", none, none, none⟩).1.code = 200 ∧
    getAppointment (patchStatusEndpoint [("a1", apptPending)] doctorD1 "a1"
        ⟨"completed", none, none, none⟩).2 "a1" =
      some { apptPending with status := "completed" } := by
  refine ⟨rfl, rfl, ?_⟩
  decide

/-- C1 (amended): for every existing appointment, a status-change request
by the assigned doctor that passes the clinicPhone guard succeeds with 200
for *any* requested status (in particular `pending → completed` and
transitions out of `rejected`/`completed`), and the stored status becomes
the requested value; no transition table is consulted and no
`InvalidTransition` error exists. -/
theorem patch_status_applies_any_status (s : Store) (user : AuthenticatedUser) (id : String)
    (b : PatchBody) (a : Appointment)
    (hrole : user.role = some "doctor")
    (hphone : phoneGuardFails b.clinicPhone = false)
    (hget : getAppointment s id = some a)
    (hown : a.doctorId = user.id) :
    (patchStatusEndpoint s user id b).1.code = 200 ∧
      ∃ a', getAppointment (patchStatusEndpoint s user id b).2 id = some a' ∧
        a'.status = b.status := by
  have hr : requireRoleOk user ["doctor"] = true := by
    unfold requireRoleOk
    rw [hrole]
    rfl
  unfold patchStatusEndpoint
  rw [hr]
  simp only [Bool.true_eq_false, if_false]
  unfold patchStatusHandler
  rw [hphone]
  simp only [Bool.false_eq_true, if_false]
  unfold updateAppointmentStatus
  rw [hget]
  simp only
  rw [if_neg (by simp [hown])]
  refine ⟨rfl, ?_⟩
  exact ⟨_, getAppointment_setAppointment_self s id a _ hget, rfl⟩

/-- C1 witness: the amended theorem applied to a concrete store, doctor and
request. -/
theorem patch_status_applies_any_status_witness :
    doctorD1.role = some "doctor" ∧
    phoneGuardFails (PatchBody.mk "completed" none none none).clinicPhone = false ∧
    getAppointment [("a1", apptPending)] "a1" = some apptPending ∧
    apptPending.doctorId = doctorD1.id ∧
    ((patchStatusEndpoint [("a1", apptPending)] doctorD1 "a1"
        (PatchBody.mk "completed" none none none)).1.code = 200 ∧
      ∃ a', getAppointment (patchStatusEndpoint [("a1", apptPending)] doctorD1 "a1"
          (PatchBody.mk "completed" none none none)).2 "a1" = some a' ∧
        a'.status = (PatchBody.mk "completed" none none none).status) :=
  ⟨rfl, rfl, rfl, rfl,
    patch_status_applies_any_status [("a1", apptPending)] doctorD1 "a1"
      (PatchBody.mk "completed" none none none) apptPending rfl rfl rfl rfl⟩

/-- C2: the handler calls `storage.updateAppointmentStatus` *before* the
doctor-ownership check, so a status-change request by a doctor who is not
the assigned doctor is answered 403 — but the appointment has already been
mutated. Evaluated at the failing input: doctor `d1` patches appointment
`a2`, which is assigned to doctor `d2` and pending; the response is 403 and
the stored status has nevertheless become `"confirmed"`. -/
theorem forbidden_patch_still_mutates :
    apptOfD2.doctorId ≠ doctorD1.id ∧
    (patchStatusEndpoint [("a2", apptOfD2)] doctorD1 "a2"
        ⟨"confirmed", none, none, none⟩).1.code = 403 ∧
    getAppointment (patchStatusEndpoint [("a2", apptOfD2)] doctorD1 "a2"
        ⟨"confirmed", none, none, none⟩).2 "a2" =
      some { apptOfD2 with status := "confirmed" } := by
  refine ⟨by decide, rfl, ?_⟩
  decide

/-- C3 counterexample: `insertAppointmentSchema` keeps a payload-supplied
`status` (the column has a default, so drizzle-zod makes it optional, not
stripped) and `createAppointment` stores it (`status || "pending"`). A
patient booking for themselves with `status: "confirmed"` in the payload
gets 201 and an appointment created directly in status `"confirmed"`, not
`"pending"`. -/
theorem created_status_follows_payload :
    (postAppointmentsHandler [] patientP1
        ⟨"p1", "d1", 1000000, "09:00", none, some "confirmed", none, none, none, none⟩
        1000000 "n1").1.code = 201 ∧
    Option.map Appointment.status (postAppointmentsHandler [] patientP1
        ⟨"p1", "d1", 1000000, "09:00", none, some "confirmed", none, none, none, none⟩
        1000000 "n1").1.payload = some "confirmed" := by
  constructor
  · decide
  · decide

/-- C3 (amended): for every successful appointment-creation request whose
payload does not supply a status (or supplies the empty string, which is
falsy), the created appointment's status is `"pending"`; a truthy
payload-supplied status is stored as given instead. -/
theorem created_status_pending_when_not_supplied (s : Store) (user : AuthenticatedUser)
    (body : InsertAppointment) (now : Int) (newId : String)
    (hcheck : insertAppointmentSchemaCheck body now = true)
    (hallow : ¬(user.role = some "patient" ∧ body.patientId ≠ user.id))
    (hstatus : body.status = none ∨ body.status = some "") :
    (postAppointmentsHandler s user body now newId).1.code = 201 ∧
    Option.map Appointment.status
        (postAppointmentsHandler s user body now newId).1.payload = some "pending" := by
  unfold postAppointmentsHandler
  rw [if_neg (by rw [hcheck]; exact Bool.true_eq_false ▸ (by simp))]
  rw [if_neg hallow]
  refine ⟨rfl, ?_⟩
  rcases hstatus with h | h <;> simp [createAppointment, h]

/-- C3 witness: the amended theorem applied to a concrete self-booking
payload without a status field. -/
theorem created_status_pending_when_not_supplied_witness :
    insertAppointmentSchemaCheck
        (InsertAppointment.mk "p1" "d1" 1000000 "09:00" none none none none none none)
        1000000 = true ∧
    ¬(patientP1.role = some "patient" ∧
        (InsertAppointment.mk "p1" "d1" 1000000 "09:00" none none none none none none).patientId
          ≠ patientP1.id) ∧
    ((postAppointmentsHandler [] patientP1
        (InsertAppointment.mk "p1" "d1" 1000000 "09:00" none none none none none none)
        1000000 "n1").1.code = 201 ∧
      Option.map Appointment.status (postAppointmentsHandler [] patientP1
        (InsertAppointment.mk "p1" "d1" 1000000 "09:00" none none none none none none)
        1000000 "n1").1.payload = some "pending") :=
  ⟨by decide, by decide,
    created_status_pending_when_not_supplied [] patientP1
      (InsertAppointment.mk "p1" "d1" 1000000 "09:00" none none none none none none)
      1000000 "n1" (by decide) (by decide) (Or.inl rfl)⟩

/-- C4: a valid-parsing appointment-creation request by an authenticated
actor with role `patient` whose id differs from the supplied patientId is
answered 403 and the appointments store is unchanged — no appointment is
created. -/
theorem patient_cannot_book_for_other (s : Store) (user : AuthenticatedUser)
    (body : InsertAppointment) (now : Int) (newId : String)
    (hcheck : insertAppointmentSchemaCheck body now = true)
    (hrole : user.role = some "patient")
    (hneq : body.patientId ≠ user.id) :
    postAppointmentsHandler s user body now newId = (⟨403, none⟩, s) := by
  unfold postAppointmentsHandler
  rw [if_neg (by rw [hcheck]; exact Bool.true_eq_false ▸ (by simp))]
  rw [if_pos ⟨hrole, hneq⟩]

/-- C4 witness: patient `p1` tries to book for patient `p2`. -/
theorem patient_cannot_book_for_other_witness :
    insertAppointmentSchemaCheck
        (InsertAppointment.mk "p2" "d1" 1000000 "09:00" none none none none none none)
        1000000 = true ∧
    patientP1.role = some "patient" ∧
    (InsertAppointment.mk "p2" "d1" 1000000 "09:00" none none none none none none).patientId
      ≠ patientP1.id ∧
    postAppointmentsHandler [] patientP1
        (InsertAppointment.mk "p2" "d1" 1000000 "09:00" none none none none none none)
        1000000 "n1" = (⟨403, none⟩, []) :=
  ⟨by decide, rfl, by decide,
    patient_cannot_book_for_other [] patientP1
      (InsertAppointment.mk "p2" "d1" 1000000 "09:00" none none none none none none)
      1000000 "n1" (by decide) rfl (by decide)⟩

/-- C5: a prescription-creation request by an authenticated doctor whose
payload names a different doctorId is answered 403 and the prescriptions
store is unchanged — no prescription record is created — for every
structurally valid payload. -/
theorem prescription_doctor_mismatch_forbidden (ps : PStore) (user : AuthenticatedUser)
    (body : InsertPrescription) (newId : String) (now : Int)
    (hrole : user.role = some "doctor")
    (hneq : body.doctorId ≠ user.id) :
    postPrescriptionsEndpoint ps user body newId now = (⟨403, none⟩, ps) := by
  have hr : requireRoleOk user ["doctor"] = true := by
    unfold requireRoleOk
    rw [hrole]
    rfl
  unfold postPrescriptionsEndpoint
  rw [hr]
  simp only [Bool.true_eq_false, if_false]
  rw [if_neg (by simp [insertPrescriptionSchemaCheck])]
  rw [if_pos hneq]

/-- C5 witness: doctor `d1` submits a prescription naming doctor `d2`. -/
theorem prescription_doctor_mismatch_forbidden_witness :
    doctorD1.role = some "doctor" ∧
    (InsertPrescription.mk none "d2" "p1" [] none).doctorId ≠ doctorD1.id ∧
    postPrescriptionsEndpoint [] doctorD1 (InsertPrescription.mk none "d2" "p1" [] none)
        "r1" 500 = (⟨403, none⟩, []) :=
  ⟨rfl, by decide,
    prescription_doctor_mismatch_forbidden [] doctorD1
      (InsertPrescription.mk none "d2" "p1" [] none) "r1" 500 rfl (by decide)⟩

/-- C6 counterexample: `insertPrescriptionSchema` is the raw drizzle-zod
insert schema — `medicines` is an unconstrained jsonb column — so a request
with an empty medicines list passes validation (where §4.4 of the spec
demands a 400 `ValidationError`), is answered 201, and the prescription
record *is* created. -/
theorem empty_medicines_prescription_created :
    medicinesSpecOk [] = false ∧
    (postPrescriptionsEndpoint [] doctorD1 ⟨none, "d1", "p1", [], none⟩ "r1" 500).1.code = 201 ∧
    getPrescription (postPrescriptionsEndpoint [] doctorD1
        ⟨none, "d1", "p1", [], none⟩ "r1" 500).2 "r1" =
      some ⟨"r1", none, "d1", "p1", [], none, 500⟩ := by
  refine ⟨rfl, rfl, ?_⟩
  decide

/-- C6 (amended): the medicines payload is not validated at all. For every
prescription-creation request by an authenticated doctor under their own
id, the request succeeds with 201 and a prescription is stored whose
medicines list is exactly the payload's — including an empty list or
entries lacking a name. -/
theorem prescription_medicines_not_validated (ps : PStore) (user : AuthenticatedUser)
    (body : InsertPrescription) (newId : String) (now : Int)
    (hrole : user.role = some "doctor")
    (heq : body.doctorId = user.id) :
    (postPrescriptionsEndpoint ps user body newId now).1.code = 201 ∧
    ∃ p, getPrescription (postPrescriptionsEndpoint ps user body newId now).2 newId = some p ∧
      p.medicines = body.medicines := by
  have hr : requireRoleOk user ["doctor"] = true := by
    unfold requireRoleOk
    rw [hrole]
    rfl
  unfold postPrescriptionsEndpoint
  rw [hr]
  simp only [Bool.true_eq_false, if_false]
  rw [if_neg (by simp [insertPrescriptionSchemaCheck])]
  rw [if_neg (by simp [heq])]
  refine ⟨rfl, ?_⟩
  refine ⟨(createPrescription ps newId now body).1, ?_, rfl⟩
  simp [createPrescription, getPrescription]

/-- C6 witness: the amended theorem applied to doctor `d1` with a
one-entry medicines list that lacks a name. -/
theorem prescription_medicines_not_validated_witness :
    doctorD1.role = some "doctor" ∧
    (InsertPrescription.mk none "d1" "p1" [Medicine.mk none (some "5ml")] none).doctorId
      = doctorD1.id ∧
    ((postPrescriptionsEndpoint [] doctorD1
        (InsertPrescription.mk none "d1" "p1" [Medicine.mk none (some "5ml")] none)
        "r1" 500).1.code = 201 ∧
      ∃ p, getPrescription (postPrescriptionsEndpoint [] doctorD1
          (InsertPrescription.mk none "d1" "p1" [Medicine.mk none (some "5ml")] none)
          "r1" 500).2 "r1" = some p ∧
        p.medicines =
          (InsertPrescription.mk none "d1" "p1" [Medicine.mk none (some "5ml")] none).medicines) :=
  ⟨rfl, rfl,
    prescription_medicines_not_validated [] doctorD1
      (InsertPrescription.mk none "d1" "p1" [Medicine.mk none (some "5ml")] none)
      "r1" 500 rfl rfl⟩

/-- C7 counterexample: both reason refinements in `insertAppointmentSchema`
begin with `!r ||`, so an empty-string reason — which is *present* in the
payload but has 0 characters after trimming, outside the claimed 5-300
window — passes validation and the request succeeds with 201 instead of
failing with 400. -/
theorem empty_reason_accepted :
    reasonSpecOk (some "") = false ∧
    (postAppointmentsHandler [] patientP1
        ⟨"p1", "d1", 1000000, "09:00", some "", none, none, none, none, none⟩
        1000000 "n1").1.code = 201 := by
  constructor
  · decide
  · decide

/-- C7 (amended): an appointment-creation request succeeds (201) exactly
when the timeSlot matches 24-hour `HH:MM` (so `"25:00"` is rejected with
400), the date is at most 60 seconds in the past at submission time, the
reason is absent, empty (the falsy guard `!r` accepts it) or has at least
5 characters after trimming and at most 300 characters *before* trimming,
and the patient self-booking rule is not violated. -/
theorem post_appointments_validation_iff (s : Store) (user : AuthenticatedUser)
    (body : InsertAppointment) (now : Int) (newId : String) :
    (postAppointmentsHandler s user body now newId).1.code = 201 ↔
      (timeSlotOk body.timeSlot = true ∧ now - 60000 ≤ body.date ∧
        reasonOk body.reason = true ∧
        ¬(user.role = some "patient" ∧ body.patientId ≠ user.id)) := by
  unfold postAppointmentsHandler
  by_cases h1 : insertAppointmentSchemaCheck body now = false
  · rw [if_pos h1]
    unfold insertAppointmentSchemaCheck at h1
    constructor
    · intro hc
      simp at hc
    · rintro ⟨ht, hd, hr, -⟩
      rw [ht, hr] at h1
      simp [hd] at h1
  · rw [if_neg h1]
    have h1' : insertAppointmentSchemaCheck body now = true := by
      cases hv : insertAppointmentSchemaCheck body now
      · exact absurd hv h1
      · rfl
    unfold insertAppointmentSchemaCheck at h1'
    simp only [Bool.and_eq_true, decide_eq_true_eq] at h1'
    by_cases h2 : user.role = some "patient" ∧ body.patientId ≠ user.id
    · rw [if_pos h2]
      constructor
      · intro hc
        simp at hc
      · rintro ⟨-, -, -, hno⟩
        exact absurd h2 hno
    · rw [if_neg h2]
      exact ⟨fun _ => ⟨h1'.1.1, h1'.1.2, h1'.2, h2⟩, fun _ => rfl⟩

/-- C8: `verifyToken` never yields claims for a token whose encoded expiry
has passed; with valid structure and signature such a token fails with the
`TokenExpired` message; and a token whose structure or signature is invalid
fails with the malformed-token message (the signature check precedes the
expiry check, as in `jsonwebtoken`). -/
theorem verify_expired_fails_malformed_invalid (t : Token) (now : Int) :
    (t.exp < now → verifyToken t now ≠ Except.ok t.claims) ∧
    (t.exp < now → t.wellFormed = true → t.sigValid = true →
      verifyToken t now = Except.error "Token has expired") ∧
    (t.wellFormed = false ∨ t.sigValid = false →
      verifyToken t now = Except.error "Invalid token") := by
  unfold verifyToken jwtVerify
  refine ⟨?_, ?_, ?_⟩
  · intro hexp
    cases hw : t.wellFormed <;> cases hs : t.sigValid <;>
      simp [hw, hs, le_of_lt hexp]
  · intro hexp hw hs
    simp [hw, hs, le_of_lt hexp]
  · rintro (hw | hs)
    · simp [hw]
    · cases hw : t.wellFormed <;> simp [hw, hs]

/-- C8 witness: the theorem applied to a concrete expired-but-well-signed
token and to a concrete token with a broken signature. -/
theorem verify_expired_fails_malformed_invalid_witness :
    (Token.mk true true 1000 (JWTPayload.mk "u1" "u1@sehat.com" (some "patient") none)).exp
      < 2000 ∧
    verifyToken (Token.mk true true 1000 (JWTPayload.mk "u1" "u1@sehat.com" (some "patient") none))
        2000 ≠
      Except.ok (Token.mk true true 1000
        (JWTPayload.mk "u1" "u1@sehat.com" (some "patient") none)).claims ∧
    verifyToken (Token.mk true true 1000 (JWTPayload.mk "u1" "u1@sehat.com" (some "patient") none))
        2000 = Except.error "Token has expired" ∧
    verifyToken (Token.mk true false 9000 (JWTPayload.mk "u1" "u1@sehat.com" (some "patient") none))
        2000 = Except.error "Invalid token" :=
  ⟨by decide,
    (verify_expired_fails_malformed_invalid
      (Token.mk true true 1000 (JWTPayload.mk "u1" "u1@sehat.com" (some "patient") none))
      2000).1 (by decide),
    (verify_expired_fails_malformed_invalid
      (Token.mk true true 1000 (JWTPayload.mk "u1" "u1@sehat.com" (some "patient") none))
      2000).2.1 (by decide) rfl rfl,
    (verify_expired_fails_malformed_invalid
      (Token.mk true false 9000 (JWTPayload.mk "u1" "u1@sehat.com" (some "patient") none))
      2000).2.2 (Or.inr rfl)⟩

/-- Helper: the acknowledge handler on an appointment owned by the caller
returns 200 and stores the record with `patientNotified := true` and no
other field changed. -/
theorem ackHandler_owner (s : Store) (user : AuthenticatedUser) (id : String) (a : Appointment)
    (hget : getAppointment s id = some a) (heq : a.patientId = user.id) :
    ackHandler s user id =
      (⟨200, some { a with patientNotified := true }⟩,
        setAppointment s id { a with patientNotified := true }) := by
  unfold ackHandler updateAppointmentStatus
  rw [hget]
  simp [heq]

/-- C9: acknowledge fails with 404 for an unknown id leaving the store
unchanged; fails with 403, store unchanged, whenever the actor is not the
owning patient; and for the owning patient succeeds with 200 regardless of
the current status, stores the record with `patientNotified := true` and
nothing else changed, and is idempotent — a second acknowledge by the same
patient returns 200 again and leaves the store exactly as after the
first. -/
theorem ack_ownership_idempotent (s : Store) (user : AuthenticatedUser) (id : String) :
    (getAppointment s id = none → ackHandler s user id = (⟨404, none⟩, s)) ∧
    (∀ a, getAppointment s id = some a → a.patientId ≠ user.id →
      ackHandler s user id = (⟨403, none⟩, s)) ∧
    (∀ a, getAppointment s id = some a → a.patientId = user.id →
      (ackHandler s user id).1.code = 200 ∧
      getAppointment (ackHandler s user id).2 id = some { a with patientNotified := true } ∧
      ackHandler (ackHandler s user id).2 user id =
        (⟨200, some { a with patientNotified := true }⟩, (ackHandler s user id).2)) := by
  refine ⟨?_, ?_, ?_⟩
  · intro h
    unfold ackHandler
    rw [h]
  · intro a hget hneq
    unfold ackHandler
    rw [hget]
    simp only [if_pos hneq]
  · intro a hget heq
    have h1 := ackHandler_owner s user id a hget heq
    have hget2 : getAppointment (setAppointment s id { a with patientNotified := true }) id =
        some { a with patientNotified := true } :=
      getAppointment_setAppointment_self s id a _ hget
    have h2 := ackHandler_owner (setAppointment s id { a with patientNotified := true }) user id
      { a with patientNotified := true } hget2 heq
    refine ⟨by rw [h1], by rw [h1]; exact hget2, ?_⟩
    rw [h1]
    rw [h2]
    rw [setAppointment_idem]

/-- C9 witness: patient `p1` acknowledges their pending appointment; the
theorem's owner branch applied to the concrete store. -/
theorem ack_ownership_idempotent_witness :
    getAppointment [("a1", apptPending)] "a1" = some apptPending ∧
    apptPending.patientId = patientP1.id ∧
    ((ackHandler [("a1", apptPending)] patientP1 "a1").1.code = 200 ∧
      getAppointment (ackHandler [("a1", apptPending)] patientP1 "a1").2 "a1" =
        some { apptPending with patientNotified := true } ∧
      ackHandler (ackHandler [("a1", apptPending)] patientP1 "a1").2 patientP1 "a1" =
        (⟨200, some { apptPending with patientNotified := true }⟩,
          (ackHandler [("a1", apptPending)] patientP1 "a1").2)) :=
  ⟨rfl, rfl,
    (ack_ownership_idempotent [("a1", apptPending)] patientP1 "a1").2.2 apptPending rfl rfl⟩

/-- C10: `updateAppointmentStatus` on an existing appointment keeps `id`,
`patientId`, `doctorId`, `date`, `timeSlot`, `reason` and `createdAt`
untouched; `status` becomes the requested value, and each of
`doctorComment`, `clinicAddress`, `clinicPhone`, `patientNotified` is the
supplied value when one is supplied and the stored value otherwise
(`Option.getD` folds the two cases). -/
theorem update_appointment_status_frame (s : Store) (id st : String) (extra : UpdateExtra)
    (a : Appointment) (hget : getAppointment s id = some a) :
    ∃ a', (updateAppointmentStatus s id st extra).1 = some a' ∧
      a'.id = a.id ∧ a'.patientId = a.patientId ∧ a'.doctorId = a.doctorId ∧
      a'.date = a.date ∧ a'.timeSlot = a.timeSlot ∧ a'.reason = a.reason ∧
      a'.createdAt = a.createdAt ∧ a'.status = st ∧
      a'.doctorComment = extra.doctorComment.getD a.doctorComment ∧
      a'.clinicAddress = extra.clinicAddress.getD a.clinicAddress ∧
      a'.clinicPhone = extra.clinicPhone.getD a.clinicPhone ∧
      a'.patientNotified = extra.patientNotified.getD a.patientNotified := by
  unfold updateAppointmentStatus
  rw [hget]
  exact ⟨_, rfl, rfl, rfl, rfl, rfl, rfl, rfl, rfl, rfl, rfl, rfl, rfl, rfl⟩

/-- C10 witness: a concrete confirmation that supplies a comment and a
phone but neither address nor patientNotified. -/
theorem update_appointment_status_frame_witness :
    getAppointment [("a1", apptPending)] "a1" = some apptPending ∧
    (∃ a', (updateAppointmentStatus [("a1", apptPending)] "a1" "confirmed"
        (UpdateExtra.mk (some (some "bring reports")) none (some (some "+911234567")) none)).1 =
          some a' ∧
      a'.id = apptPending.id ∧ a'.patientId = apptPending.patientId ∧
      a'.doctorId = apptPending.doctorId ∧
      a'.date = apptPending.date ∧ a'.timeSlot = apptPending.timeSlot ∧
      a'.reason = apptPending.reason ∧
      a'.createdAt = apptPending.createdAt ∧ a'.status = "confirmed" ∧
      a'.doctorComment =
        (UpdateExtra.mk (some (some "bring reports")) none (some (some "+911234567"))
          none).doctorComment.getD apptPending.doctorComment ∧
      a'.clinicAddress =
        (UpdateExtra.mk (some (some "bring reports")) none (some (some "+911234567"))
          none).clinicAddress.getD apptPending.clinicAddress ∧
      a'.clinicPhone =
        (UpdateExtra.mk (some (some "bring reports")) none (some (some "+911234567"))
          none).clinicPhone.getD apptPending.clinicPhone ∧
      a'.patientNotified =
        (UpdateExtra.mk (some (some "bring reports")) none (some (some "+911234567"))
          none).patientNotified.getD apptPending.patientNotified) :=
  ⟨rfl,
    update_appointment_status_frame [("a1", apptPending)] "a1" "confirmed"
      (UpdateExtra.mk (some (some "bring reports")) none (some (some "+911234567")) none)
      apptPending rfl⟩
